import Mathlib

/-!
Shallow embedding of the Inspectify data-validation tool
(`validator.py`: `validate_dataset_with_expectations`, plus the loader
prologue and report epilogue of that function), with theorems checking the
specification's claims about it.

Modelling conventions:
* pandas float64 cells are modelled as their exact rational values; exact
  operations on floats (comparisons, min, max) stay exact, while the
  `.mean()` computation, whose outcome depends on IEEE rounding, is
  modelled with an explicit binary64 rounding function `fl` (53-bit
  round-to-nearest-even significand, unbounded exponent);
* a cell is `Option Val` (`none` = null/NaN);
* a column's pandas dtype classification (`is_numeric_dtype` /
  `is_string_dtype or dtype == object` / `is_datetime64_any_dtype` / other)
  is a closed tag `Dtype` attached to the column by the loader;
* the file parsers (`pd.read_csv` / `pd.read_excel` / `pd.read_json`) are
  external, so they enter the model as `Except String Table` parameters:
  the parse outcome of the given file under each format;
* Python's `round(x, nd)` is modelled as rounding to the nearest multiple
  of `10^-nd` (the spec allows either tie convention, and no claim depends
  on the behaviour at ties);
* the filesystem that receives the HTML report is explicit state `FS`
  threaded through the pipeline.
-/

namespace Inspectify

/-- A cell value of a loaded table. `num` covers int64/float64 cells,
`str` textual cells, `dt` datetime cells (as a timestamp), `obj` any value
of a column that pandas classifies as none of the above; `obj` carries the
value's `str()` rendering. -/
inductive Val where
  | num (q : ℚ)
  | str (s : String)
  | dt (t : ℤ)
  | obj (s : String)
deriving DecidableEq

/-- The `str()` text form of a value, used by
`col_data_clean.astype(str)` in the length check. -/
def Val.strForm : Val → String
  | .num q => toString q
  | .str s => s
  | .dt t => toString t
  | .obj s => s

/-- Length of the text form of a value (`astype(str).str.len()`). -/
def Val.strLen (v : Val) : ℕ := v.strForm.length

/-- Numeric reading of a cell, used by the numeric-column statistics. In
pandas every cell of a numeric-dtype column is numeric, so on such columns
only the `num` case is ever exercised. -/
def Val.asNum : Val → ℚ
  | .num q => q
  | .str _ => 0
  | .dt t => (t : ℚ)
  | .obj _ => 0

/-- The dtype classification of a column, as branched on by
`validate_dataset_with_expectations`: `pd.api.types.is_numeric_dtype`,
then `is_string_dtype or dtype == 'object'`, then
`is_datetime64_any_dtype`, else unclassified. -/
inductive Dtype where
  | numeric
  | stringLike
  | datetime
  | other
deriving DecidableEq

/-- One column of a loaded DataFrame: its label, its dtype
classification, and its cells in row order. -/
structure Column where
  name : String
  dtype : Dtype
  cells : List (Option Val)
deriving DecidableEq

/-- A loaded DataFrame: `len(df)` and the columns in order. In a real
DataFrame every column has exactly `nRows` cells. -/
structure Table where
  nRows : ℕ
  cols : List Column
deriving DecidableEq

/-- `df.columns.tolist()`. -/
def colNames (t : Table) : List String := t.cols.map Column.name

/-- `col_data.isnull().sum()`. -/
def nullCount (c : Column) : ℕ := c.cells.countP fun x => x.isNone

/-- `col_data.dropna()`: the non-null cells, in row order. -/
def nonnulls (c : Column) : List Val := c.cells.filterMap id

/-- Minimum of a series (`.min()`); `d` is a default for the empty list,
which the code never reaches (guarded by `len(col_data_clean) == 0`). -/
def seriesMin {α : Type} [LinearOrder α] (d : α) : List α → α
  | [] => d
  | x :: xs => xs.foldl min x

/-- Maximum of a series (`.max()`). -/
def seriesMax {α : Type} [LinearOrder α] (d : α) : List α → α
  | [] => d
  | x :: xs => xs.foldl max x

/-- Round a rational to the nearest integer, ties to even (the IEEE
round-half-even rule). -/
def roundEven (x : ℚ) : ℤ :=
  let n := ⌊x⌋
  let f := x - (n : ℚ)
  if f < 1 / 2 then n
  else if 1 / 2 < f then n + 1
  else if n % 2 = 0 then n else n + 1

/-- Base-2 logarithm on naturals, structurally recursive on a fuel bound
so that it evaluates inside the kernel. -/
def natLog2Fuel : ℕ → ℕ → ℕ
  | 0, _ => 0
  | fuel + 1, n => if n ≤ 1 then 0 else natLog2Fuel fuel (n / 2) + 1

/-- `natLog2 n` is the position of the leading bit of `n` (0 for 0, 1). -/
def natLog2 (n : ℕ) : ℕ := natLog2Fuel n n

/-- `2^e` over ℚ for an integer exponent, via kernel-friendly `Nat.pow`. -/
def pow2 (e : ℤ) : ℚ :=
  match e with
  | .ofNat n => ((2 ^ n : ℕ) : ℚ)
  | .negSucc n => 1 / ((2 ^ (n + 1) : ℕ) : ℚ)

/-- The binade exponent of a positive rational: the integer `e` with
`2^e ≤ a < 2^(e+1)`. -/
def binadeExp (a : ℚ) : ℤ :=
  if a ≥ 1 then (natLog2 ⌊a⌋₊ : ℤ)
  else
    let f := natLog2 ⌊a⁻¹⌋₊
    if a = pow2 (-(f : ℤ)) then -(f : ℤ) else -(f : ℤ) - 1

/-- Binary64 (float64) rounding: round `q` to 53 significant bits,
nearest value, ties to even. The exponent is unbounded (no overflow and
no subnormals), which is adequate for the magnitudes these checks
exercise. -/
def fl (q : ℚ) : ℚ :=
  if q = 0 then 0
  else if q > 0 then
    let g := pow2 (binadeExp q - 52)
    (roundEven (q / g) : ℚ) * g
  else
    let a := -q
    let g := pow2 (binadeExp a - 52)
    Neg.neg ((roundEven (a / g) : ℚ) * g)

/-- One float64 addition. -/
def flAdd (a b : ℚ) : ℚ := fl (a + b)

/-- One float64 division. -/
def flDiv (a b : ℚ) : ℚ := fl (a / b)

/-- Mean of a series (`.mean()`): numpy sums the float64 values
sequentially, rounding after every addition, then divides by the count in
float64. -/
def seriesMean (l : List ℚ) : ℚ := flDiv (l.foldl flAdd 0) (l.length : ℚ)

/-- Median of a series (`.median()`): middle order statistic, or the
average of the two middle order statistics for even length. The middle
order statistics are stored floats, so the odd case involves no
arithmetic; in the even case numpy performs one float64 addition and an
exact halving, and the average is modelled with exact arithmetic (either
way the average of two stored values lies between them, so the check
outcome under scrutiny coincides). -/
def seriesMedian (l : List ℚ) : ℚ :=
  let s := l.insertionSort (· ≤ ·)
  if l.length % 2 = 1 then s.getD (l.length / 2) 0
  else (s.getD (l.length / 2 - 1) 0 + s.getD (l.length / 2) 0) / 2

/-- `Series.unique().tolist()`: the distinct values in order of first
occurrence. -/
def uniquesAux (seen : List Val) : List Val → List Val
  | [] => []
  | v :: vs => if v ∈ seen then uniquesAux seen vs
               else v :: uniquesAux (v :: seen) vs

/-- Distinct non-null values of a column, in order of first occurrence. -/
def uniques (l : List Val) : List Val := uniquesAux [] l

/-- `col_data_clean.nunique()`. -/
def nunique (c : Column) : ℕ := (uniques (nonnulls c)).length

/-- Python's `round(q, nd)`, modelled as nearest multiple of `10^-nd`. -/
def roundTo (nd : ℕ) (q : ℚ) : ℚ := ((round (q * (10 : ℚ) ^ nd) : ℤ) : ℚ) / (10 : ℚ) ^ nd

/-- The `result` payload of one validation entry, one constructor per
expectation type, with one field per key of the Python dict. -/
inductive Detail where
  | rowCount (observed_value element_count missing_count : ℕ)
  | columnsMatch (observed_value : List String) (details : String)
  | columnsUnique (observed_value : String)
  | notNull (element_count missing_count : ℕ) (missing_percent : ℚ)
      (unexpected_count : ℕ)
  | typeList (observed_value details : String)
  | between (observed_min observed_max : ℚ) (element_count missing_count : ℕ)
  | meanBetween (observed_value range_lo range_hi : ℚ)
  | medianBetween (observed_value range_lo range_hi : ℚ)
  | uniqueVals (unique_count total_count : ℕ)
  | lengths (min_length max_length : ℕ) (details : String)
  | inSet (observed_unique element_count missing_count unexpected_count : ℕ)
      (partial_unexpected_list : List Val)
deriving DecidableEq

/-- One entry appended to `validation_results`. -/
structure CheckResult where
  expectation_type : String
  success : Bool
  column : Option String
  detail : Detail
deriving DecidableEq

/-- Test 1: row count check. -/
def rowCountCheck (t : Table) : CheckResult :=
  { expectation_type := "expect_table_row_count_to_be_greater_than"
    success := decide (t.nRows > 0)
    column := none
    detail := .rowCount t.nRows t.nRows 0 }

/-- Test 2: column existence check (`success` is the literal `True`). -/
def columnsPresentCheck (t : Table) : CheckResult :=
  { expectation_type := "expect_table_columns_to_match_set"
    success := true
    column := none
    detail := .columnsMatch (colNames t)
      ("Table has " ++ toString (colNames t).length ++ " columns") }

/-- Test 3: no duplicate columns; `len(set(df.columns))` is the number of
distinct labels, i.e. `(colNames t).dedup.length`. -/
def columnsUniqueCheck (t : Table) : CheckResult :=
  let names := colNames t
  let hasDup := decide (names.length ≠ names.dedup.length)
  { expectation_type := "expect_table_columns_to_be_unique"
    success := !hasDup
    column := none
    detail := .columnsUnique
      (if !hasDup then "No duplicate columns" else "Duplicate columns found") }

/-- The three table-level entries, in emission order. -/
def tableChecks (t : Table) : List CheckResult :=
  [rowCountCheck t, columnsPresentCheck t, columnsUniqueCheck t]

/-- Null value check (`element_count` is `len(df)`, and the percentage is
guarded by `if len(df) > 0 else 0`). -/
def notNullCheck (nRows : ℕ) (c : Column) : CheckResult :=
  let nc := nullCount c
  let pct : ℚ := if nRows > 0 then ((nc : ℚ) / (nRows : ℚ)) * 100 else 0
  { expectation_type := "expect_column_values_to_not_be_null"
    success := decide (nc = 0)
    column := some c.name
    detail := .notNull nRows nc (roundTo 2 pct) nc }

/-- The clean numeric values of a column (`col_data_clean` read as
numbers). -/
def numVals (c : Column) : List ℚ := (nonnulls c).map Val.asNum

/-- Numeric branch, data type check; the concrete pandas dtype string
(`int64`, `float64`, ...) is abstracted by the classification tag. -/
def typeNumericCheck (c : Column) : CheckResult :=
  { expectation_type := "expect_column_values_to_be_in_type_list"
    success := true
    column := some c.name
    detail := .typeList "numeric" "Column is numeric type" }

/-- Numeric branch, value range check. -/
def valueRangeCheck (c : Column) : CheckResult :=
  let vals := numVals c
  { expectation_type := "expect_column_values_to_be_between"
    success := true
    column := some c.name
    detail := .between (seriesMin 0 vals) (seriesMax 0 vals)
      vals.length (nullCount c) }

/-- Numeric branch, mean check: `col_min <= col_mean <= col_max`, on the
unrounded mean; only the displayed value is rounded to 4 places. -/
def meanCheck (c : Column) : CheckResult :=
  let vals := numVals c
  let lo := seriesMin 0 vals
  let hi := seriesMax 0 vals
  let m := seriesMean vals
  { expectation_type := "expect_column_mean_to_be_between"
    success := decide (lo ≤ m ∧ m ≤ hi)
    column := some c.name
    detail := .meanBetween (roundTo 4 m) lo hi }

/-- Numeric branch, median check, same shape as the mean check. -/
def medianCheck (c : Column) : CheckResult :=
  let vals := numVals c
  let lo := seriesMin 0 vals
  let hi := seriesMax 0 vals
  let md := seriesMedian vals
  { expectation_type := "expect_column_median_to_be_between"
    success := decide (lo ≤ md ∧ md ≤ hi)
    column := some c.name
    detail := .medianBetween (roundTo 4 md) lo hi }

/-- Uniqueness check, emitted only when
`col_data_clean.nunique() == len(df)`. -/
def uniqueCheck (nRows : ℕ) (c : Column) : CheckResult :=
  { expectation_type := "expect_column_values_to_be_unique"
    success := true
    column := some c.name
    detail := .uniqueVals (nunique c) nRows }

/-- Numeric-column checks in emission order. -/
def numericChecks (nRows : ℕ) (c : Column) : List CheckResult :=
  [typeNumericCheck c, valueRangeCheck c, meanCheck c, medianCheck c] ++
    (if nunique c = nRows then [uniqueCheck nRows c] else [])

/-- String branch, data type check. -/
def typeStringCheck (c : Column) : CheckResult :=
  { expectation_type := "expect_column_values_to_be_in_type_list"
    success := true
    column := some c.name
    detail := .typeList "string/object" "Column is string/object type" }

/-- `col_data_clean.astype(str).str.len()`. -/
def strLens (c : Column) : List ℕ := (nonnulls c).map Val.strLen

/-- String branch, string length check (`max_length <= 255`). -/
def valueLengthCheck (c : Column) : CheckResult :=
  let lens := strLens c
  let mn := seriesMin 0 lens
  let mx := seriesMax 0 lens
  { expectation_type := "expect_column_value_lengths_to_be_between"
    success := decide (mx ≤ 255)
    column := some c.name
    detail := .lengths mn mx
      (if mx ≤ 255 then "String lengths within acceptable range"
       else "Some strings exceed 255 chars") }

/-- String-column checks in emission order. -/
def stringChecks (nRows : ℕ) (c : Column) : List CheckResult :=
  [typeStringCheck c, valueLengthCheck c] ++
    (if nunique c = nRows then [uniqueCheck nRows c] else [])

/-- Datetime branch, data type check (its only check). -/
def typeDatetimeCheck (c : Column) : CheckResult :=
  { expectation_type := "expect_column_values_to_be_in_type_list"
    success := true
    column := some c.name
    detail := .typeList "datetime" "Column is datetime type" }

/-- Categorical value check: emitted for any column with
`0 < unique_count < 30`, dtype-independent; `unexpected` is the literal
`0`, so this check always passes. -/
def inSetCheck (c : Column) : CheckResult :=
  let allowed := uniques (nonnulls c)
  let unexpected : ℕ := 0
  { expectation_type := "expect_column_values_to_be_in_set"
    success := decide (unexpected = 0)
    column := some c.name
    detail := .inSet allowed.length (nonnulls c).length (nullCount c)
      unexpected (if allowed.length > 5 then allowed.take 5 else allowed) }

/-- The guarded categorical check at the end of the per-column loop. -/
def inSetChecks (c : Column) : List CheckResult :=
  if 0 < nunique c ∧ nunique c < 30 then [inSetCheck c] else []

/-- One iteration of the per-column loop: the null check, then (unless
`len(col_data_clean) == 0` triggers `continue`) the dtype-branch checks
followed by the categorical check. -/
def columnChecks (nRows : ℕ) (c : Column) : List CheckResult :=
  notNullCheck nRows c ::
    (if (nonnulls c).length = 0 then []
     else
       (match c.dtype with
        | .numeric => numericChecks nRows c
        | .stringLike => stringChecks nRows c
        | .datetime => [typeDatetimeCheck c]
        | .other => []) ++ inSetChecks c)

/-- The full `validation_results` list for a loaded table. -/
def battery (t : Table) : List CheckResult :=
  tableChecks t ++ t.cols.flatMap (columnChecks t.nRows)

/-- The loader dispatch inside the `try` block: extension match, with the
`raise ValueError` for unknown extensions. Each `parse` argument is the
outcome of the corresponding pandas reader on the given file. -/
def loadRaw (ext : String) (csvParse excelParse jsonParse : Except String Table) :
    Except String Table :=
  if ext = ".csv" then csvParse
  else if ext = ".xlsx" ∨ ext = ".xls" then excelParse
  else if ext = ".json" then jsonParse
  else .error ("Unsupported file format: " ++ ext)

/-- The whole loader: `except Exception as e` wraps every failure —
including the unsupported-format one raised inside the `try` — into
`ValueError("Error reading file: " + str(e))`. -/
def load (ext : String) (csvParse excelParse jsonParse : Except String Table) :
    Except String Table :=
  match loadRaw ext csvParse excelParse jsonParse with
  | .ok t => .ok t
  | .error m => .error ("Error reading file: " ++ m)

/-- The filesystem receiving report files, as explicit state. -/
structure FS where
  files : List (String × String)
deriving DecidableEq

/-- Writing a file (newest entry shadows older ones). -/
def FS.write (fs : FS) (path content : String) : FS :=
  ⟨(path, content) :: fs.files⟩

/-- The report document, abstracted to its summary line; the claims under
check concern when a report artifact exists, not its markup. -/
def renderSummary (filename : String) (rs : List CheckResult) : String :=
  let total := rs.length
  let ok := (rs.filter fun r => r.success).length
  "Validation Report - " ++ filename ++ ": " ++ toString ok ++ " of " ++
    toString total ++ " passed"

/-- `validate_dataset_with_expectations`: load, evaluate the battery,
write the report, return the results and the report path. On a load
failure the exception propagates before anything is written. -/
def validateDataset (ext : String)
    (csvParse excelParse jsonParse : Except String Table)
    (reportFolder filename : String) (fs : FS) :
    FS × Except String (List CheckResult × String) :=
  match load ext csvParse excelParse jsonParse with
  | .error m => (fs, .error m)
  | .ok df =>
      let results := battery df
      let reportPath := reportFolder ++ "/" ++ filename ++ "_report.html"
      (fs.write reportPath (renderSummary filename results),
        .ok (results, reportPath))

/-! ## Helper lemmas about the series statistics -/

theorem foldl_min_mem {α : Type} [LinearOrder α] (x : α) (l : List α) :
    l.foldl min x ∈ x :: l := by
  induction l generalizing x with
  | nil => simp
  | cons y ys ih =>
      have h := ih (min x y)
      have hgoal : (y :: ys).foldl min x = ys.foldl min (min x y) := by simp
      rw [hgoal]
      rcases List.mem_cons.mp h with h1 | h1
      · rw [h1]
        rcases min_choice x y with hm | hm
        · rw [hm]; simp
        · rw [hm]; simp
      · simp only [List.mem_cons]
        tauto

theorem foldl_min_le {α : Type} [LinearOrder α] (x : α) (l : List α) :
    ∀ a ∈ x :: l, l.foldl min x ≤ a := by
  induction l generalizing x with
  | nil => intro a ha; simp at ha; simp [ha]
  | cons y ys ih =>
      intro a ha
      have hbase : (y :: ys).foldl min x = ys.foldl min (min x y) := by simp
      rcases List.mem_cons.mp ha with h1 | h1
      · have := ih (min x y) (min x y) (List.mem_cons_self _ _)
        rw [hbase, h1]
        exact le_trans this (min_le_left x y)
      · rcases List.mem_cons.mp h1 with h2 | h2
        · have := ih (min x y) (min x y) (List.mem_cons_self _ _)
          rw [hbase, h2]
          exact le_trans this (min_le_right x y)
        · rw [hbase]
          exact ih (min x y) a (List.mem_cons_of_mem _ h2)

theorem foldl_max_mem {α : Type} [LinearOrder α] (x : α) (l : List α) :
    l.foldl max x ∈ x :: l := by
  induction l generalizing x with
  | nil => simp
  | cons y ys ih =>
      have h := ih (max x y)
      have hgoal : (y :: ys).foldl max x = ys.foldl max (max x y) := by simp
      rw [hgoal]
      rcases List.mem_cons.mp h with h1 | h1
      · rw [h1]
        rcases max_choice x y with hm | hm
        · rw [hm]; simp
        · rw [hm]; simp
      · simp only [List.mem_cons]
        tauto

theorem le_foldl_max {α : Type} [LinearOrder α] (x : α) (l : List α) :
    ∀ a ∈ x :: l, a ≤ l.foldl max x := by
  induction l generalizing x with
  | nil => intro a ha; simp at ha; simp [ha]
  | cons y ys ih =>
      intro a ha
      have hbase : (y :: ys).foldl max x = ys.foldl max (max x y) := by simp
      rcases List.mem_cons.mp ha with h1 | h1
      · have := ih (max x y) (max x y) (List.mem_cons_self _ _)
        rw [hbase, h1]
        exact le_trans (le_max_left x y) this
      · rcases List.mem_cons.mp h1 with h2 | h2
        · have := ih (max x y) (max x y) (List.mem_cons_self _ _)
          rw [hbase, h2]
          exact le_trans (le_max_right x y) this
        · rw [hbase]
          exact ih (max x y) a (List.mem_cons_of_mem _ h2)

theorem seriesMin_mem {α : Type} [LinearOrder α] (d : α) (l : List α)
    (h : l ≠ []) : seriesMin d l ∈ l := by
  match l with
  | [] => exact absurd rfl h
  | x :: xs => exact foldl_min_mem x xs

theorem seriesMin_le {α : Type} [LinearOrder α] (d : α) (l : List α) :
    ∀ a ∈ l, seriesMin d l ≤ a := by
  match l with
  | [] => intro a ha; simp at ha
  | x :: xs => exact foldl_min_le x xs

theorem seriesMax_mem {α : Type} [LinearOrder α] (d : α) (l : List α)
    (h : l ≠ []) : seriesMax d l ∈ l := by
  match l with
  | [] => exact absurd rfl h
  | x :: xs => exact foldl_max_mem x xs

theorem le_seriesMax {α : Type} [LinearOrder α] (d : α) (l : List α) :
    ∀ a ∈ l, a ≤ seriesMax d l := by
  match l with
  | [] => intro a ha; simp at ha
  | x :: xs => exact le_foldl_max x xs

theorem mem_sorted_of_mem_sort (l : List ℚ) (a : ℚ)
    (h : a ∈ l.insertionSort (· ≤ ·)) : a ∈ l :=
  (List.perm_insertionSort (· ≤ ·) l).mem_iff.mp h

theorem seriesMedian_bounds (l : List ℚ) (h : l ≠ []) :
    seriesMin 0 l ≤ seriesMedian l ∧ seriesMedian l ≤ seriesMax 0 l := by
  set s := l.insertionSort (· ≤ ·) with hs
  have hslen : s.length = l.length :=
    (List.perm_insertionSort (· ≤ ·) l).length_eq
  have hlen : 0 < l.length := List.length_pos.mpr h
  have hbounds : ∀ a ∈ s, seriesMin 0 l ≤ a ∧ a ≤ seriesMax 0 l := by
    intro a ha
    have hmem := mem_sorted_of_mem_sort l a (hs ▸ ha)
    exact ⟨seriesMin_le 0 l a hmem, le_seriesMax 0 l a hmem⟩
  rw [seriesMedian]
  by_cases hodd : l.length % 2 = 1
  · have hidx : l.length / 2 < s.length := by
      rw [hslen]; exact Nat.div_lt_self hlen (by norm_num)
    rw [if_pos hodd, ← hs, List.getD_eq_getElem s 0 hidx]
    exact hbounds _ (List.getElem_mem hidx)
  · have h2 : 2 ≤ l.length := by omega
    have hidx2 : l.length / 2 < s.length := by
      rw [hslen]; exact Nat.div_lt_self hlen (by norm_num)
    have hidx1 : l.length / 2 - 1 < s.length := by
      rw [hslen]
      have := Nat.div_le_self l.length 2
      omega
    rw [if_neg hodd, ← hs, List.getD_eq_getElem s 0 hidx1,
      List.getD_eq_getElem s 0 hidx2]
    have hb1 := hbounds _ (List.getElem_mem hidx1)
    have hb2 := hbounds _ (List.getElem_mem hidx2)
    constructor
    · linarith [hb1.1, hb2.1]
    · linarith [hb1.2, hb2.2]

/-! ## Helper lemmas about columns and distinct counts -/

theorem dedup_length_iff {l : List String} :
    l.length = l.dedup.length ↔ l.Nodup := by
  constructor
  · intro hlen
    have hsub := List.dedup_sublist l
    have : l.dedup = l := hsub.eq_of_length hlen.symm
    rw [← this]
    exact List.nodup_dedup l
  · intro hnd
    rw [List.dedup_eq_self.mpr hnd]

theorem nonnulls_all_none {c : Column} (h : ∀ x ∈ c.cells, x = none) :
    nonnulls c = [] := by
  rw [nonnulls, List.filterMap_eq_nil_iff]
  intro x hx
  rw [h x hx]
  rfl

theorem nullCount_all_none {c : Column} (h : ∀ x ∈ c.cells, x = none) :
    nullCount c = c.cells.length := by
  rw [nullCount, List.countP_eq_length]
  intro x hx
  rw [h x hx]
  rfl

theorem column_of_mem_columnChecks {nRows : ℕ} {c : Column}
    {r : CheckResult} (h : r ∈ columnChecks nRows c) :
    r.column = some c.name := by
  rw [columnChecks] at h
  rcases List.mem_cons.mp h with h | h
  · rw [h]; rfl
  · split at h
    · simp at h
    · rcases List.mem_append.mp h with h | h
      · split at h
        · rw [numericChecks] at h
          rcases List.mem_append.mp h with h | h
          · simp only [List.mem_cons, List.not_mem_nil, or_false] at h
            rcases h with h | h | h | h <;> (rw [h]; rfl)
          · split at h
            · simp only [List.mem_singleton] at h
              rw [h]; rfl
            · simp at h
        · rw [stringChecks] at h
          rcases List.mem_append.mp h with h | h
          · simp only [List.mem_cons, List.not_mem_nil, or_false] at h
            rcases h with h | h <;> (rw [h]; rfl)
          · split at h
            · simp only [List.mem_singleton] at h
              rw [h]; rfl
            · simp at h
        · simp only [List.mem_singleton] at h
          rw [h]; rfl
        · simp at h
      · rw [inSetChecks] at h
        split at h
        · simp only [List.mem_singleton] at h
          rw [h]; rfl
        · simp at h

/-! ## Evaluation lemmas for the binary64 rounding model -/

theorem roundEven_low (x : ℚ) (n : ℤ) (h1 : (n : ℚ) ≤ x)
    (h2 : x < (n : ℚ) + 1 / 2) : roundEven x = n := by
  have hf : ⌊x⌋ = n := Int.floor_eq_iff.mpr ⟨h1, by linarith⟩
  simp only [roundEven, hf]
  rw [if_pos (by linarith)]

theorem roundEven_high (x : ℚ) (n : ℤ) (h1 : (n : ℚ) + 1 / 2 < x)
    (h2 : x < (n : ℚ) + 1) : roundEven x = n + 1 := by
  have hf : ⌊x⌋ = n := Int.floor_eq_iff.mpr ⟨by linarith, by linarith⟩
  simp only [roundEven, hf]
  rw [if_neg (by linarith), if_pos (by linarith)]

theorem roundEven_half_odd (x : ℚ) (n : ℤ) (h : x = (n : ℚ) + 1 / 2)
    (hodd : n % 2 = 1) : roundEven x = n + 1 := by
  have hf : ⌊x⌋ = n := Int.floor_eq_iff.mpr ⟨by rw [h]; linarith, by rw [h]; linarith⟩
  simp only [roundEven, hf]
  rw [if_neg (by rw [h]; linarith), if_neg (by rw [h]; linarith),
    if_neg (by omega)]

theorem nat_floor_eval (r : ℚ) (n : ℕ) (h1 : (n : ℚ) ≤ r)
    (h2 : r < (n : ℚ) + 1) : ⌊r⌋₊ = n := by
  have h0 : 0 ≤ r := le_trans (by positivity) h1
  exact (Nat.floor_eq_iff h0).mpr ⟨h1, h2⟩

theorem binadeExp_eval_lt_one (a : ℚ) (m f : ℕ)
    (h1 : ¬ a ≥ 1) (hm : ⌊a⁻¹⌋₊ = m) (hf : natLog2 m = f)
    (hne : a ≠ pow2 (-(f : ℤ))) :
    binadeExp a = -(f : ℤ) - 1 := by
  simp only [binadeExp]
  rw [if_neg h1, hm, hf, if_neg hne]

theorem fl_eval (q A g : ℚ) (e n : ℤ)
    (hq0 : ¬ q = 0) (hqpos : q > 0)
    (hb : binadeExp q = e)
    (hg : pow2 (e - 52) = g)
    (hr : roundEven (q / g) = n)
    (hA : (n : ℚ) * g = A) :
    fl q = A := by
  simp only [fl]
  rw [if_neg hq0, if_pos hqpos, hb, hg, hr, hA]

/-- The stored float64 image of the decimal literal 0.1. -/
theorem fl_tenth : fl (1 / 10) = 3602879701896397 / 36028797018963968 := by
  have hb : binadeExp (1 / 10 : ℚ) = -4 := by
    rw [binadeExp_eval_lt_one (1 / 10 : ℚ) 10 3 (by norm_num)
      (nat_floor_eval _ 10 (by norm_num) (by norm_num)) rfl
      (by
        simp only [(show pow2 (-((3 : ℕ) : ℤ)) = 1 / ((2 ^ 3 : ℕ) : ℚ) from rfl)]
        norm_num)]
    norm_num
  have hr : roundEven ((1 / 10 : ℚ) / (1 / 72057594037927936)) =
      7205759403792793 + 1 :=
    roundEven_high _ 7205759403792793 (by norm_num) (by norm_num)
  exact fl_eval _ _ (1 / 72057594037927936) (-4) (7205759403792793 + 1)
    (by norm_num) (by norm_num) hb
    (by
      simp only [(show pow2 ((-4 : ℤ) - 52) = 1 / ((2 ^ 56 : ℕ) : ℚ) from rfl)]
      norm_num)
    hr (by push_cast; norm_num)

/-- fl is the identity on the stored value of 0.1 (it is representable). -/
theorem fl_fix_tenth : fl (3602879701896397 / 36028797018963968) =
    3602879701896397 / 36028797018963968 := by
  have hb : binadeExp (3602879701896397 / 36028797018963968 : ℚ) = -4 := by
    rw [binadeExp_eval_lt_one (3602879701896397 / 36028797018963968 : ℚ) 9 3
      (by norm_num)
      (nat_floor_eval _ 9 (by norm_num) (by norm_num)) rfl
      (by
        simp only [(show pow2 (-((3 : ℕ) : ℤ)) = 1 / ((2 ^ 3 : ℕ) : ℚ) from rfl)]
        norm_num)]
    norm_num
  have hr : roundEven ((3602879701896397 / 36028797018963968 : ℚ) /
      (1 / 72057594037927936)) = 7205759403792794 :=
    roundEven_low _ 7205759403792794 (by norm_num) (by norm_num)
  exact fl_eval _ _ (1 / 72057594037927936) (-4) 7205759403792794
    (by norm_num) (by norm_num) hb
    (by
      simp only [(show pow2 ((-4 : ℤ) - 52) = 1 / ((2 ^ 56 : ℕ) : ℚ) from rfl)]
      norm_num)
    hr (by push_cast; norm_num)

/-- fl is the identity on twice the stored 0.1 (exact scaling). -/
theorem fl_fix_two_tenths : fl (3602879701896397 / 18014398509481984) =
    3602879701896397 / 18014398509481984 := by
  have hb : binadeExp (3602879701896397 / 18014398509481984 : ℚ) = -3 := by
    rw [binadeExp_eval_lt_one (3602879701896397 / 18014398509481984 : ℚ) 4 2
      (by norm_num)
      (nat_floor_eval _ 4 (by norm_num) (by norm_num)) rfl
      (by
        simp only [(show pow2 (-((2 : ℕ) : ℤ)) = 1 / ((2 ^ 2 : ℕ) : ℚ) from rfl)]
        norm_num)]
    norm_num
  have hr : roundEven ((3602879701896397 / 18014398509481984 : ℚ) /
      (1 / 36028797018963968)) = 7205759403792794 :=
    roundEven_low _ 7205759403792794 (by norm_num) (by norm_num)
  exact fl_eval _ _ (1 / 36028797018963968) (-3) 7205759403792794
    (by norm_num) (by norm_num) hb
    (by
      simp only [(show pow2 ((-3 : ℤ) - 52) = 1 / ((2 ^ 55 : ℕ) : ℚ) from rfl)]
      norm_num)
    hr (by push_cast; norm_num)

/-- The third float64 addition of 0.1 hits a tie and rounds up to even:
0.1 + 0.1 + 0.1 = 0.30000000000000004 in float64. -/
theorem fl_three_tenths : fl (10808639105689191 / 36028797018963968) =
    1351079888211149 / 4503599627370496 := by
  have hb : binadeExp (10808639105689191 / 36028797018963968 : ℚ) = -2 := by
    rw [binadeExp_eval_lt_one (10808639105689191 / 36028797018963968 : ℚ) 3 1
      (by norm_num)
      (nat_floor_eval _ 3 (by norm_num) (by norm_num)) rfl
      (by
        simp only [(show pow2 (-((1 : ℕ) : ℤ)) = 1 / ((2 ^ 1 : ℕ) : ℚ) from rfl)]
        norm_num)]
    norm_num
  have hr : roundEven ((10808639105689191 / 36028797018963968 : ℚ) /
      (1 / 18014398509481984)) = 5404319552844595 + 1 :=
    roundEven_half_odd _ 5404319552844595 (by push_cast; norm_num) (by decide)
  exact fl_eval _ _ (1 / 18014398509481984) (-2) (5404319552844595 + 1)
    (by norm_num) (by norm_num) hb
    (by
      simp only [(show pow2 ((-2 : ℤ) - 52) = 1 / ((2 ^ 54 : ℕ) : ℚ) from rfl)]
      norm_num)
    hr (by push_cast; norm_num)

/-- Dividing the float64 sum of three 0.1 values by 3 rounds up:
the float64 mean is 0.10000000000000002, one ulp above 0.1. -/
theorem fl_mean_tenths : fl (1351079888211149 / 13510798882111488) =
    7205759403792795 / 72057594037927936 := by
  have hb : binadeExp (1351079888211149 / 13510798882111488 : ℚ) = -4 := by
    rw [binadeExp_eval_lt_one (1351079888211149 / 13510798882111488 : ℚ) 9 3
      (by norm_num)
      (nat_floor_eval _ 9 (by norm_num) (by norm_num)) rfl
      (by
        simp only [(show pow2 (-((3 : ℕ) : ℤ)) = 1 / ((2 ^ 3 : ℕ) : ℚ) from rfl)]
        norm_num)]
    norm_num
  have hr : roundEven ((1351079888211149 / 13510798882111488 : ℚ) /
      (1 / 72057594037927936)) = 7205759403792794 + 1 :=
    roundEven_high _ 7205759403792794 (by norm_num) (by norm_num)
  exact fl_eval _ _ (1 / 72057594037927936) (-4) (7205759403792794 + 1)
    (by norm_num) (by norm_num) hb
    (by
      simp only [(show pow2 ((-4 : ℤ) - 52) = 1 / ((2 ^ 56 : ℕ) : ℚ) from rfl)]
      norm_num)
    hr (by push_cast; norm_num)

/-- The float64 mean of three stored 0.1 values, end to end. -/
theorem seriesMean_three_tenths :
    seriesMean [(3602879701896397 / 36028797018963968 : ℚ),
      3602879701896397 / 36028797018963968,
      3602879701896397 / 36028797018963968] =
      7205759403792795 / 72057594037927936 := by
  have hstep1 : flAdd 0 (3602879701896397 / 36028797018963968 : ℚ) =
      3602879701896397 / 36028797018963968 := by
    rw [flAdd, zero_add]
    exact fl_fix_tenth
  have hstep2 : flAdd (3602879701896397 / 36028797018963968 : ℚ)
      (3602879701896397 / 36028797018963968) =
      3602879701896397 / 18014398509481984 := by
    rw [flAdd, show (3602879701896397 / 36028797018963968 +
      3602879701896397 / 36028797018963968 : ℚ) =
      3602879701896397 / 18014398509481984 by norm_num]
    exact fl_fix_two_tenths
  have hstep3 : flAdd (3602879701896397 / 18014398509481984 : ℚ)
      (3602879701896397 / 36028797018963968) =
      1351079888211149 / 4503599627370496 := by
    rw [flAdd, show (3602879701896397 / 18014398509481984 +
      3602879701896397 / 36028797018963968 : ℚ) =
      10808639105689191 / 36028797018963968 by norm_num]
    exact fl_three_tenths
  rw [seriesMean]
  simp only [List.foldl_cons, List.foldl_nil, hstep1, hstep2, hstep3,
    List.length_cons, List.length_nil]
  rw [flDiv, show ((1351079888211149 / 4503599627370496 : ℚ) /
    ((0 + 1 + 1 + 1 : ℕ) : ℚ)) = 1351079888211149 / 13510798882111488 by
      push_cast; norm_num]
  exact fl_mean_tenths

/-! ## Claim theorems -/

/-- C1: for every loaded table, the battery emits exactly the three
table-level results first, in the order row-count / columns-present /
columns-unique, before any column-scoped result; the row-count check
passes iff the row count is positive and its detail's observed count is
the row count exactly; the columns-present check always passes; the
columns-unique check passes iff no two columns share a name. -/
theorem battery_table_level (t : Table) :
    (battery t =
      rowCountCheck t :: columnsPresentCheck t :: columnsUniqueCheck t ::
        t.cols.flatMap (columnChecks t.nRows)) ∧
    (∀ r ∈ t.cols.flatMap (columnChecks t.nRows), r.column ≠ none) ∧
    (rowCountCheck t).column = none ∧
    (columnsPresentCheck t).column = none ∧
    (columnsUniqueCheck t).column = none ∧
    (rowCountCheck t).expectation_type =
      "expect_table_row_count_to_be_greater_than" ∧
    ((rowCountCheck t).success = true ↔ 0 < t.nRows) ∧
    (rowCountCheck t).detail = .rowCount t.nRows t.nRows 0 ∧
    (columnsPresentCheck t).expectation_type =
      "expect_table_columns_to_match_set" ∧
    (columnsPresentCheck t).success = true ∧
    (columnsUniqueCheck t).expectation_type =
      "expect_table_columns_to_be_unique" ∧
    ((columnsUniqueCheck t).success = true ↔ (colNames t).Nodup) := by
  refine ⟨rfl, ?_, rfl, rfl, rfl, rfl, ?_, rfl, rfl, rfl, rfl, ?_⟩
  · intro r hr
    obtain ⟨c, _, hrc⟩ := List.mem_flatMap.mp hr
    rw [column_of_mem_columnChecks hrc]
    simp
  · simp [rowCountCheck]
  · simp only [columnsUniqueCheck, Bool.not_eq_true', decide_eq_false_iff_not,
      not_not]
    exact dedup_length_iff

/-- C1 witness. -/
theorem battery_table_level_witness :
    (rowCountCheck (Table.mk 1 [Column.mk "a" .other [some (.obj "x")]])).success
        = true ↔
      0 < (Table.mk 1 [Column.mk "a" .other [some (.obj "x")]]).nRows :=
  (battery_table_level
    (Table.mk 1 [Column.mk "a" .other [some (.obj "x")]])).2.2.2.2.2.2.1

/-- C4 counterexample: a column with no cells (a zero-row table) has all
cells null vacuously, yet its not-null check passes with a recorded null
percentage of 0, not 100. -/
theorem allnull_empty_column_passes :
    (∀ x ∈ (Column.mk "a" .other []).cells, x = none) ∧
    (notNullCheck 0 (Column.mk "a" .other [])).success = true ∧
    (notNullCheck 0 (Column.mk "a" .other [])).detail =
      .notNull 0 0 0 0 := by
  refine ⟨by simp, by decide, ?_⟩
  have hz : roundTo 2 0 = 0 := by
    rw [roundTo, zero_mul]
    norm_num
  simp [notNullCheck, nullCount, hz]

/-- C4 (amended): for every column of a table with at least one row whose
cells are all null, the not-null check fails, with recorded null count
equal to the row count and null percent exactly 100, and no further
checks are emitted for that column. -/
theorem allnull_column_behaviour (nRows : ℕ) (c : Column)
    (hlen : c.cells.length = nRows) (hpos : 0 < nRows)
    (hall : ∀ x ∈ c.cells, x = none) :
    (notNullCheck nRows c).success = false ∧
    (notNullCheck nRows c).detail = .notNull nRows nRows 100 nRows ∧
    columnChecks nRows c = [notNullCheck nRows c] := by
  have hnc : nullCount c = nRows := by rw [nullCount_all_none hall, hlen]
  have hnn : nonnulls c = [] := nonnulls_all_none hall
  have hq : ((nRows : ℚ) / (nRows : ℚ)) * 100 = 100 := by
    rw [div_self (by exact_mod_cast hpos.ne'), one_mul]
  have hround : roundTo 2 100 = 100 := by
    have h1 : (100 : ℚ) * (10 : ℚ) ^ (2 : ℕ) = ((10000 : ℕ) : ℚ) := by norm_num
    rw [roundTo, h1, round_natCast]
    norm_num
  refine ⟨?_, ?_, ?_⟩
  · simp [notNullCheck, hnc, hpos.ne']
  · simp only [notNullCheck, hnc, hpos, if_pos, hq, hround, gt_iff_lt]
  · rw [columnChecks, hnn]
    simp

/-- C4 witness. -/
theorem allnull_column_behaviour_witness :
    (notNullCheck 2 (Column.mk "a" .other [none, none])).success = false ∧
    (notNullCheck 2 (Column.mk "a" .other [none, none])).detail =
      .notNull 2 2 100 2 ∧
    columnChecks 2 (Column.mk "a" .other [none, none]) =
      [notNullCheck 2 (Column.mk "a" .other [none, none])] :=
  allnull_column_behaviour 2 (Column.mk "a" .other [none, none])
    (by decide) (by decide) (by decide)

/-- C3: for every column whose non-null distinct-value count is between 1
and 29 inclusive, whatever its dtype classification, a values-in-set
check is emitted as the last check of that column; it always passes
(its unexpected count is the literal 0), and its detail carries the
distinct count and at most the first 5 distinct values observed. -/
theorem values_in_set_emission (nRows : ℕ) (c : Column)
    (h1 : 1 ≤ nunique c) (h2 : nunique c ≤ 29) :
    columnChecks nRows c =
      (notNullCheck nRows c ::
        (match c.dtype with
         | .numeric => numericChecks nRows c
         | .stringLike => stringChecks nRows c
         | .datetime => [typeDatetimeCheck c]
         | .other => [])) ++ [inSetCheck c] ∧
    (inSetCheck c).success = true ∧
    (inSetCheck c).detail =
      .inSet (nunique c) (nonnulls c).length (nullCount c) 0
        ((uniques (nonnulls c)).take 5) ∧
    ((uniques (nonnulls c)).take 5).length ≤ 5 := by
  have hne : nonnulls c ≠ [] := by
    intro habs
    rw [nunique, habs] at h1
    simp [uniques, uniquesAux] at h1
  have hset : inSetChecks c = [inSetCheck c] := by
    rw [inSetChecks, if_pos]
    exact ⟨by omega, by omega⟩
  refine ⟨?_, rfl, ?_, ?_⟩
  · rw [columnChecks, if_neg (by simpa using hne), hset, List.cons_append]
  · rw [inSetCheck]
    by_cases h5 : (uniques (nonnulls c)).length > 5
    · simp only [h5, if_pos, nunique]
    · simp only [h5, if_neg, nunique, ite_false]
      rw [List.take_of_length_le (by omega)]
  · exact le_trans (List.length_take_le 5 _) (by omega)

/-- C3 witness. -/
theorem values_in_set_emission_witness :
    (inSetCheck (Column.mk "s" .other
        [some (.str "x"), some (.str "x")])).success = true :=
  (values_in_set_emission 2
    (Column.mk "s" .other [some (.str "x"), some (.str "x")])
    (by decide) (by decide)).2.1

/-- C10: for every column classified as none of numeric, string-like or
datetime, with at least one non-null value, no type check is emitted: its
checks are exactly the not-null check followed by the values-in-set check
iff the non-null distinct count is between 1 and 29 inclusive. -/
theorem other_dtype_checks (nRows : ℕ) (c : Column)
    (hd : c.dtype = .other) (hne : nonnulls c ≠ []) :
    columnChecks nRows c =
      notNullCheck nRows c ::
        (if 1 ≤ nunique c ∧ nunique c ≤ 29 then [inSetCheck c] else []) ∧
    (∀ r ∈ columnChecks nRows c,
        r.expectation_type ≠ "expect_column_values_to_be_in_type_list") := by
  have hmain : columnChecks nRows c = notNullCheck nRows c :: inSetChecks c := by
    rw [columnChecks, if_neg (by simpa using hne), hd]
    rfl
  constructor
  · rw [hmain, inSetChecks]
    by_cases h : 0 < nunique c ∧ nunique c < 30
    · rw [if_pos h, if_pos ⟨by omega, by omega⟩]
    · rw [if_neg h, if_neg (by omega)]
  · intro r hr
    rw [hmain] at hr
    rcases List.mem_cons.mp hr with h | h
    · rw [h]
      exact (by decide : ("expect_column_values_to_not_be_null" : String) ≠
        "expect_column_values_to_be_in_type_list")
    · rw [inSetChecks] at h
      split at h
      · rw [List.mem_singleton.mp h]
        exact (by decide : ("expect_column_values_to_be_in_set" : String) ≠
          "expect_column_values_to_be_in_type_list")
      · simp at h

/-- C10 witness. -/
theorem other_dtype_checks_witness :
    columnChecks 1 (Column.mk "o" .other [some (.obj "x")]) =
      notNullCheck 1 (Column.mk "o" .other [some (.obj "x")]) ::
        (if 1 ≤ nunique (Column.mk "o" .other [some (.obj "x")]) ∧
            nunique (Column.mk "o" .other [some (.obj "x")]) ≤ 29
         then [inSetCheck (Column.mk "o" .other [some (.obj "x")])]
         else []) :=
  (other_dtype_checks 1 (Column.mk "o" .other [some (.obj "x")])
    (by decide) (by decide)).1

/-- C5: for every string-like column with at least one non-null value,
the value-length check is emitted right after the type check; it passes
iff every non-null value's text form has length at most 255 (i.e. iff the
maximum observed length is at most 255), and its detail records the
observed minimum and maximum lengths, which are attained by actual
values. -/
theorem string_length_check (nRows : ℕ) (c : Column)
    (hd : c.dtype = .stringLike) (hne : nonnulls c ≠ []) :
    (∃ rest, columnChecks nRows c =
        notNullCheck nRows c :: typeStringCheck c :: valueLengthCheck c ::
          rest) ∧
    ((valueLengthCheck c).success = true ↔
      ∀ v ∈ nonnulls c, v.strLen ≤ 255) ∧
    (valueLengthCheck c).detail =
      .lengths (seriesMin 0 (strLens c)) (seriesMax 0 (strLens c))
        (if seriesMax 0 (strLens c) ≤ 255
         then "String lengths within acceptable range"
         else "Some strings exceed 255 chars") ∧
    (∀ v ∈ nonnulls c,
        seriesMin 0 (strLens c) ≤ v.strLen ∧
        v.strLen ≤ seriesMax 0 (strLens c)) ∧
    (∃ v ∈ nonnulls c, v.strLen = seriesMax 0 (strLens c)) ∧
    (∃ v ∈ nonnulls c, v.strLen = seriesMin 0 (strLens c)) := by
  have hlne : strLens c ≠ [] := by
    rw [strLens]
    simpa using hne
  have hmem : ∀ v ∈ nonnulls c, v.strLen ∈ strLens c := by
    intro v hv
    rw [strLens]
    exact List.mem_map_of_mem _ hv
  refine ⟨?_, ?_, rfl, ?_, ?_, ?_⟩
  · refine ⟨(if nunique c = nRows then [uniqueCheck nRows c] else []) ++
      inSetChecks c, ?_⟩
    rw [columnChecks, if_neg (by simpa using hne), hd]
    rfl
  · simp only [valueLengthCheck, decide_eq_true_eq]
    constructor
    · intro hmax v hv
      exact le_trans (le_seriesMax 0 (strLens c) _ (hmem v hv)) hmax
    · intro hall
      obtain ⟨n, hn, hEq⟩ :=
        List.mem_map.mp (by rw [← strLens]; exact seriesMax_mem 0 _ hlne)
      rw [← hEq]
      exact hall n hn
  · intro v hv
    exact ⟨seriesMin_le 0 (strLens c) _ (hmem v hv),
      le_seriesMax 0 (strLens c) _ (hmem v hv)⟩
  · obtain ⟨v, hv, hEq⟩ :=
      List.mem_map.mp (by rw [← strLens]; exact seriesMax_mem 0 _ hlne)
    exact ⟨v, hv, hEq⟩
  · obtain ⟨v, hv, hEq⟩ :=
      List.mem_map.mp (by rw [← strLens]; exact seriesMin_mem 0 _ hlne)
    exact ⟨v, hv, hEq⟩

/-- C5 witness. -/
theorem string_length_check_witness :
    (valueLengthCheck (Column.mk "s" .stringLike
        [some (.str "ab"), some (.str "c")])).success = true ↔
      ∀ v ∈ nonnulls (Column.mk "s" .stringLike
        [some (.str "ab"), some (.str "c")]), v.strLen ≤ 255 :=
  (string_length_check 2
    (Column.mk "s" .stringLike [some (.str "ab"), some (.str "c")])
    (by decide) (by decide)).2.1

/-- C6 counterexample: on a numeric column holding three float64 `0.1`
cells (the parsed image of "0.1" is exactly `fl (1/10) =
3602879701896397/2^55`), the float64-computed mean exceeds the column
maximum, so `mean_in_range` fails — refuting the claim that the mean and
median checks always pass. -/
theorem mean_in_range_fails_on_floats :
    fl (1 / 10) = 3602879701896397 / 36028797018963968 ∧
    seriesMax 0 (numVals (Column.mk "v" .numeric
        [some (.num (3602879701896397 / 36028797018963968)),
         some (.num (3602879701896397 / 36028797018963968)),
         some (.num (3602879701896397 / 36028797018963968))])) <
      seriesMean (numVals (Column.mk "v" .numeric
        [some (.num (3602879701896397 / 36028797018963968)),
         some (.num (3602879701896397 / 36028797018963968)),
         some (.num (3602879701896397 / 36028797018963968))])) ∧
    (meanCheck (Column.mk "v" .numeric
        [some (.num (3602879701896397 / 36028797018963968)),
         some (.num (3602879701896397 / 36028797018963968)),
         some (.num (3602879701896397 / 36028797018963968))])).success =
      false := by
  have hvals : numVals (Column.mk "v" .numeric
      [some (.num (3602879701896397 / 36028797018963968)),
       some (.num (3602879701896397 / 36028797018963968)),
       some (.num (3602879701896397 / 36028797018963968))]) =
      [(3602879701896397 / 36028797018963968 : ℚ),
       3602879701896397 / 36028797018963968,
       3602879701896397 / 36028797018963968] := rfl
  have hmin : seriesMin 0 [(3602879701896397 / 36028797018963968 : ℚ),
      3602879701896397 / 36028797018963968,
      3602879701896397 / 36028797018963968] =
      3602879701896397 / 36028797018963968 := by
    simp [seriesMin]
  have hmax : seriesMax 0 [(3602879701896397 / 36028797018963968 : ℚ),
      3602879701896397 / 36028797018963968,
      3602879701896397 / 36028797018963968] =
      3602879701896397 / 36028797018963968 := by
    simp [seriesMax]
  refine ⟨fl_tenth, ?_, ?_⟩
  · rw [hvals, hmax, seriesMean_three_tenths]
    norm_num
  · simp only [meanCheck, hvals, hmin, hmax, seriesMean_three_tenths]
    rw [decide_eq_false_iff_not]
    rintro ⟨-, h2⟩
    norm_num at h2

/-- C6 (amended): for every numeric column with at least one non-null
value, the value-range check records as min/max the true minimum and
maximum of the column's non-null values (each is attained and bounds all
values); the median check always passes; the mean check compares the
unrounded float64-computed mean against that min/max — a comparison that
float64 rounding of the mean can make fail — and the 4-decimal rounding
of mean and median enters only the displayed detail. -/
theorem numeric_column_stats (nRows : ℕ) (c : Column)
    (hd : c.dtype = .numeric) (hne : nonnulls c ≠ []) :
    (∃ rest, columnChecks nRows c =
        notNullCheck nRows c :: typeNumericCheck c :: valueRangeCheck c ::
          meanCheck c :: medianCheck c :: rest) ∧
    (valueRangeCheck c).detail =
      .between (seriesMin 0 (numVals c)) (seriesMax 0 (numVals c))
        (numVals c).length (nullCount c) ∧
    seriesMin 0 (numVals c) ∈ numVals c ∧
    seriesMax 0 (numVals c) ∈ numVals c ∧
    (∀ q ∈ numVals c,
        seriesMin 0 (numVals c) ≤ q ∧ q ≤ seriesMax 0 (numVals c)) ∧
    (medianCheck c).success = true ∧
    (meanCheck c).success =
      decide (seriesMin 0 (numVals c) ≤ seriesMean (numVals c) ∧
        seriesMean (numVals c) ≤ seriesMax 0 (numVals c)) ∧
    (meanCheck c).detail =
      .meanBetween (roundTo 4 (seriesMean (numVals c)))
        (seriesMin 0 (numVals c)) (seriesMax 0 (numVals c)) ∧
    (medianCheck c).detail =
      .medianBetween (roundTo 4 (seriesMedian (numVals c)))
        (seriesMin 0 (numVals c)) (seriesMax 0 (numVals c)) := by
  have hvne : numVals c ≠ [] := by
    rw [numVals]
    simpa using hne
  have hmedian := seriesMedian_bounds (numVals c) hvne
  refine ⟨?_, rfl, seriesMin_mem 0 _ hvne, seriesMax_mem 0 _ hvne, ?_, ?_,
    rfl, rfl, rfl⟩
  · refine ⟨(if nunique c = nRows then [uniqueCheck nRows c] else []) ++
      inSetChecks c, ?_⟩
    rw [columnChecks, if_neg (by simpa using hne), hd]
    rfl
  · intro q hq
    exact ⟨seriesMin_le 0 (numVals c) q hq, le_seriesMax 0 (numVals c) q hq⟩
  · simp only [medianCheck, decide_eq_true_eq]
    exact hmedian

/-- C6 witness. -/
theorem numeric_column_stats_witness :
    (medianCheck (Column.mk "n" .numeric
        [some (.num 1), some (.num 2), some (.num 4)])).success = true :=
  (numeric_column_stats 3
    (Column.mk "n" .numeric [some (.num 1), some (.num 2), some (.num 4)])
    (by decide) (by decide)).2.2.2.2.2.1

/-- C2 counterexample: for the unsupported extension ".txt" the loader
fails with the generic wrapped message, which names none of the supported
formats — contrary to the claim that the unsupported-format failure
carries a message listing them — and a parse failure is wrapped into the
very same error shape, so the two kinds are not distinguishable by the
caller. -/
theorem load_unsupported_message :
    load ".txt" (.ok (Table.mk 0 [])) (.ok (Table.mk 0 []))
        (.ok (Table.mk 0 [])) =
      .error "Error reading file: Unsupported file format: .txt" ∧
    ¬ ("csv".toList <:+:
        ("Error reading file: Unsupported file format: .txt").toList) ∧
    ¬ ("xls".toList <:+:
        ("Error reading file: Unsupported file format: .txt").toList) ∧
    ¬ ("json".toList <:+:
        ("Error reading file: Unsupported file format: .txt").toList) ∧
    load ".csv" (.error "parser failure") (.ok (Table.mk 0 []))
        (.ok (Table.mk 0 [])) =
      .error "Error reading file: parser failure" := by
  refine ⟨rfl, by decide, by decide, by decide, rfl⟩

/-- C2 (amended): every load failure surfaces as the single wrapped
ValueError kind "Error reading file: ...": an unsupported extension
yields the wrapped "Unsupported file format" message (which does not list
the supported formats), and an unparsable file yields the underlying
parser message under the same wrapper; the two cases differ only in
message text, not in error kind. -/
theorem load_error_cases :
    (∀ (ext : String) (cp xp jp : Except String Table),
        ext ∉ [".csv", ".xlsx", ".xls", ".json"] →
        load ext cp xp jp =
          .error ("Error reading file: Unsupported file format: " ++ ext)) ∧
    (∀ (xp jp : Except String Table) (m : String),
        load ".csv" (.error m) xp jp =
          .error ("Error reading file: " ++ m)) ∧
    (∀ (cp jp : Except String Table) (m : String),
        load ".xlsx" cp (.error m) jp =
          .error ("Error reading file: " ++ m) ∧
        load ".xls" cp (.error m) jp =
          .error ("Error reading file: " ++ m)) ∧
    (∀ (cp xp : Except String Table) (m : String),
        load ".json" cp xp (.error m) =
          .error ("Error reading file: " ++ m)) := by
  refine ⟨?_, ?_, ?_, ?_⟩
  · intro ext cp xp jp hext
    simp only [List.mem_cons, List.not_mem_nil, or_false, not_or] at hext
    obtain ⟨h1, h2, h3, h4⟩ := hext
    rw [load, loadRaw, if_neg h1, if_neg (by tauto), if_neg h4]
    have hsplit : ("Error reading file: Unsupported file format: " : String) =
        "Error reading file: " ++ "Unsupported file format: " := rfl
    rw [hsplit, String.append_assoc]
  · intro xp jp m
    rfl
  · intro cp jp m
    exact ⟨rfl, rfl⟩
  · intro cp xp m
    rfl

/-- C2 witness. -/
theorem load_error_cases_witness :
    load ".parquet" (.ok (Table.mk 0 [])) (.ok (Table.mk 0 []))
        (.ok (Table.mk 0 [])) =
      .error ("Error reading file: Unsupported file format: " ++ ".parquet") :=
  load_error_cases.1 ".parquet" (.ok (Table.mk 0 [])) (.ok (Table.mk 0 []))
    (.ok (Table.mk 0 [])) (by decide)

/-- C7 counterexample: two columns with the same dtype classification
(both numeric, over the same number of rows) generate different sets of
check kinds — the uniqueness check appears for one and not the other — so
the kinds are not determined by the dtype classification alone. -/
theorem kinds_not_dtype_determined :
    (Column.mk "a" .numeric [some (.num 1), some (.num 2)]).dtype =
      (Column.mk "b" .numeric [some (.num 1), some (.num 1)]).dtype ∧
    "expect_column_values_to_be_unique" ∈
      (columnChecks 2 (Column.mk "a" .numeric
        [some (.num 1), some (.num 2)])).map CheckResult.expectation_type ∧
    "expect_column_values_to_be_unique" ∉
      (columnChecks 2 (Column.mk "b" .numeric
        [some (.num 1), some (.num 1)])).map CheckResult.expectation_type := by
  refine ⟨rfl, by decide, by decide⟩

/-- C7 (amended): every column-scoped CheckResult of the battery
references a column that exists in the table that produced it, and the
sequence of check kinds generated for a column is fully determined by its
dtype classification together with its cell contents and the table's row
count (in particular it does not depend on the column's name, and there
is no randomness or external configuration). -/
theorem battery_scope_and_kinds :
    (∀ (t : Table) (r : CheckResult), r ∈ battery t →
        ∀ nm, r.column = some nm → nm ∈ colNames t) ∧
    (∀ (nRows : ℕ) (c₁ c₂ : Column),
        c₁.dtype = c₂.dtype → c₁.cells = c₂.cells →
        (columnChecks nRows c₁).map CheckResult.expectation_type =
          (columnChecks nRows c₂).map CheckResult.expectation_type) := by
  constructor
  · intro t r hr nm hnm
    rw [battery] at hr
    rcases List.mem_append.mp hr with h | h
    · rw [tableChecks] at h
      simp only [List.mem_cons, List.not_mem_nil, or_false] at h
      rcases h with h | h | h <;> (rw [h] at hnm; simp [rowCountCheck,
        columnsPresentCheck, columnsUniqueCheck] at hnm)
    · obtain ⟨c, hc, hrc⟩ := List.mem_flatMap.mp h
      have := column_of_mem_columnChecks hrc
      rw [this] at hnm
      have hnmc : nm = c.name := by
        injection hnm.symm
      rw [hnmc, colNames]
      exact List.mem_map_of_mem Column.name hc
  · intro nRows c₁ c₂ hdt hcells
    obtain ⟨nm₁, d₁, cs₁⟩ := c₁
    obtain ⟨nm₂, d₂, cs₂⟩ := c₂
    simp only [Column.mk.injEq] at hdt hcells
    subst hdt
    subst hcells
    cases d₁ <;>
      simp [columnChecks, numericChecks, stringChecks, inSetChecks,
        inSetCheck, notNullCheck, typeNumericCheck, valueRangeCheck,
        meanCheck, medianCheck, uniqueCheck, typeStringCheck,
        valueLengthCheck, typeDatetimeCheck, nonnulls, nunique, nullCount,
        uniques, numVals, strLens, apply_ite (List.map
          CheckResult.expectation_type)]

/-- C7 witness. -/
theorem battery_scope_and_kinds_witness :
    (columnChecks 1 (Column.mk "a" .other [some (.obj "x")])).map
        CheckResult.expectation_type =
      (columnChecks 1 (Column.mk "b" .other [some (.obj "x")])).map
        CheckResult.expectation_type :=
  battery_scope_and_kinds.2 1 (Column.mk "a" .other [some (.obj "x")])
    (Column.mk "b" .other [some (.obj "x")]) rfl rfl

/-- C8: whenever loading fails, the pipeline propagates the error before
producing any output: the filesystem is left exactly as it was (no report
file and no partial artifact is written), and no result value exists. -/
theorem load_failure_no_report (ext : String)
    (cp xp jp : Except String Table) (folder filename : String)
    (fs : FS) (m : String) (h : load ext cp xp jp = .error m) :
    validateDataset ext cp xp jp folder filename fs = (fs, .error m) := by
  rw [validateDataset, h]

/-- C8 witness. -/
theorem load_failure_no_report_witness :
    validateDataset ".txt" (.ok (Table.mk 0 [])) (.ok (Table.mk 0 []))
        (.ok (Table.mk 0 [])) "reports" "data.txt" (FS.mk []) =
      (FS.mk [], .error "Error reading file: Unsupported file format: .txt") :=
  load_failure_no_report ".txt" (.ok (Table.mk 0 [])) (.ok (Table.mk 0 []))
    (.ok (Table.mk 0 [])) "reports" "data.txt" (FS.mk [])
    "Error reading file: Unsupported file format: .txt" rfl

/-- C9: the pipeline's outcome — the ordered CheckResult sequence and the
report path — is a pure function of the loaded table alone: it does not
depend on the state of the report store, and running the pipeline a
second time on the unchanged input (over the filesystem left by the first
run) yields an outcome identical to the first, with no hidden state or
randomness influencing any result. -/
theorem battery_deterministic (ext : String)
    (cp xp jp : Except String Table) (folder filename : String)
    (fs fs' : FS) :
    (validateDataset ext cp xp jp folder filename fs).2 =
      (validateDataset ext cp xp jp folder filename fs').2 ∧
    (validateDataset ext cp xp jp folder filename
        (validateDataset ext cp xp jp folder filename fs).1).2 =
      (validateDataset ext cp xp jp folder filename fs).2 := by
  cases h : load ext cp xp jp <;> simp [validateDataset, h]

end Inspectify
